import Mathlib

/-!
Shallow embedding of the perioperative pharmacy refill workflow
(`app/agents/pharmacy_agent.py`, `app/safety/circuit_breaker.py`,
`app/agents/orchestrator.py`, `app/state_machine.py`) together with
theorems settling the specification claims about it.

Conventions: Python dict-shaped check results become the `CheckFinding`
structure with `Option` fields for keys that may be absent; an exception
raised by an awaited check (captured by `asyncio.gather(...,
return_exceptions=True)`) becomes the `Except.error` side of
`Except String CheckFinding`; Python floats (doses, confidences, clock
times) become `ℚ`; a Python `raise` escaping a function becomes an
`Except.error` result.
-/

namespace Periop

/-! ### Data model of one safety-check outcome (pharmacy_agent.py) -/

/-- One check-result dict as built by the `_check_*` coroutines: keys
`check`, `severity`, `finding` always present, `recommendation` and
`schedule` only sometimes. -/
structure CheckFinding where
  check : String
  severity : String
  finding : String
  recommendation : Option String := none
  schedule : Option String := none
deriving DecidableEq, Repr

/-- An element of `SafetyResult.findings`: either a check-result dict or
the `{"check": name, "error": str(exc)}` dict built for a failed check. -/
inductive FindingEntry where
  | finding (f : CheckFinding)
  | errorEntry (check : String) (error : String)
deriving DecidableEq, Repr

/-- The `SafetyResult` dataclass. -/
structure SafetyResult where
  passed : Bool
  blocked : Bool
  escalation_required : Bool
  findings : List FindingEntry
  recommendations : List String
deriving DecidableEq, Repr

/-- `PharmacyAgent._generate_recommendations`: collect the
`recommendation` value of each finding dict that has that key. -/
def generate_recommendations : List FindingEntry → List String
  | [] => []
  | .finding f :: rest =>
      match f.recommendation with
      | some r => r :: generate_recommendations rest
      | none => generate_recommendations rest
  | .errorEntry _ _ :: rest => generate_recommendations rest

/-! ### The aggregation in `PharmacyAgent.validate_safety` (lines 57-93)

The four checks run under `asyncio.gather(..., return_exceptions=True)`,
so each arrives either as a result dict or as an exception object; the
aggregation below is a function of those four outcomes.  `AggState`
threads the `findings` / `blocked` / `escalation_required` locals through
the three sequential `if`-blocks of the source (there is no block for the
dosage check: its gathered result is never consulted). -/

structure AggState where
  findings : List FindingEntry
  blocked : Bool
  escalation_required : Bool
deriving DecidableEq, Repr

/-- The `allergy_check` block of `validate_safety`. -/
def allergyStep (allergy_check : Except String CheckFinding) : AggState :=
  match allergy_check with
  | .error e => ⟨[.errorEntry "allergy" e], true, false⟩
  | .ok a =>
      if a.severity = "major" then ⟨[.finding a], true, false⟩
      else if a.severity = "moderate" then ⟨[.finding a], false, true⟩
      else ⟨[], false, false⟩

/-- The `ddi_check` block of `validate_safety`. -/
def ddiStep (s : AggState) (ddi_check : Except String CheckFinding) : AggState :=
  match ddi_check with
  | .error e => { s with findings := s.findings ++ [.errorEntry "ddi" e] }
  | .ok d =>
      if d.severity = "major" then ⟨s.findings ++ [.finding d], true, s.escalation_required⟩
      else if d.severity = "moderate" then ⟨s.findings ++ [.finding d], s.blocked, true⟩
      else s

/-- The `controlled_check` block of `validate_safety`.  The source reads
`controlled_check['schedule']` with a plain subscript, so a result dict
without a `schedule` key (the non-controlled outcome of
`_check_controlled_substance`) raises `KeyError` out of
`validate_safety`; that raise is the `Except.error` case here. -/
def controlledStep (s : AggState) (controlled_check : Except String CheckFinding) :
    Except String AggState :=
  match controlled_check with
  | .error e => .ok { s with findings := s.findings ++ [.errorEntry "controlled" e] }
  | .ok c =>
      match c.schedule with
      | none => .error "KeyError: schedule"
      | some sch =>
          if sch = "II" ∨ sch = "III" then
            .ok ⟨s.findings ++ [.finding c], s.blocked, true⟩
          else .ok s

/-- `PharmacyAgent.validate_safety`, as a function of the four gathered
check outcomes.  `dosage_check` is a parameter because the source gathers
it, and it is unused because the source never reads it afterwards. -/
def validate_safety (allergy_check ddi_check dosage_check controlled_check :
    Except String CheckFinding) : Except String SafetyResult :=
  match controlledStep (ddiStep (allergyStep allergy_check) ddi_check) controlled_check with
  | .error e => .error e
  | .ok s =>
      .ok ⟨!s.blocked, s.blocked, s.escalation_required, s.findings,
           generate_recommendations s.findings⟩

/-! ### Spec-side observation helpers over one gathered outcome -/

/-- The check arrived as a result dict carrying the given severity. -/
def yieldsSeverity (c : Except String CheckFinding) (s : String) : Bool :=
  match c with
  | .ok f => f.severity = s
  | .error _ => false

/-- The check arrived as an exception (an unresolved failure marker). -/
def isFailure (c : Except String CheckFinding) : Bool :=
  match c with
  | .error _ => true
  | .ok _ => false

/-- The check arrived as a result dict whose `schedule` key is II or III. -/
def hasScheduleIIorIII (c : Except String CheckFinding) : Bool :=
  match c with
  | .ok f => f.schedule = some "II" || f.schedule = some "III"
  | .error _ => false

/-- The findings the allergy block contributes: the error dict on failure,
the result dict when its severity is major or moderate, nothing otherwise. -/
def notableAllergy : Except String CheckFinding → List FindingEntry
  | .error e => [.errorEntry "allergy" e]
  | .ok f => if f.severity = "major" ∨ f.severity = "moderate" then [.finding f] else []

/-- The findings the ddi block contributes. -/
def notableDdi : Except String CheckFinding → List FindingEntry
  | .error e => [.errorEntry "ddi" e]
  | .ok f => if f.severity = "major" ∨ f.severity = "moderate" then [.finding f] else []

/-- The findings the controlled-substance block contributes: the result
dict only when its `schedule` is II or III (never for Schedule IV). -/
def notableControlled : Except String CheckFinding → List FindingEntry
  | .error e => [.errorEntry "controlled" e]
  | .ok f => if f.schedule = some "II" ∨ f.schedule = some "III" then [.finding f] else []

/-- Name under the `check` key of a findings entry. -/
def entryCheckName : FindingEntry → String
  | .finding f => f.check
  | .errorEntry c _ => c

/-! ### `PharmacyAgent._check_dosage` (lines 202-227) and
`PharmacyAgent._check_controlled_substance` (lines 229-244)

The `drug_info` metadata dict: `min_dose` / `max_dose` default to `0` /
`float('inf')` via `.get`, modelled by `Option ℚ` (`none` = key absent;
an absent `max_dose` imposes no upper bound); `dea_schedule` is read with
`.get` and compared to the list `['II', 'III', 'IV']`. -/

structure DrugInfo where
  drug_name : String := ""
  active_ingredients : List String := []
  drug_class : String := ""
  min_dose : Option ℚ := none
  max_dose : Option ℚ := none
  dea_schedule : Option String := none
deriving DecidableEq, Repr

def natOfDigits (ds : List Char) : Nat :=
  ds.foldl (fun n c => 10 * n + (c.toNat - 48)) 0

/-- Python `\s`: space, tab, newline, carriage return, vertical tab, form feed. -/
def isPySpace (c : Char) : Bool :=
  c = ' ' || c = '\t' || c = '\n' || c = '\r' || c.toNat = 11 || c.toNat = 12

/-- The ordered alternation `(mg|mcg|g)` of the dose regex, tried at the
head of the remaining input (trailing characters permitted, as with
`re.match` without an end anchor). -/
def matchUnit : List Char → Option String
  | 'm' :: 'g' :: _ => some "mg"
  | 'm' :: 'c' :: 'g' :: _ => some "mcg"
  | 'g' :: _ => some "g"
  | _ => none

/-- `re.match(r'(\d+(?:\.\d+)?)\s*(mg|mcg|g)', requested_dose)` followed by
`float(group(1))`: greedy digits, an optional fractional part (consumed
only when at least one digit follows the dot — otherwise the optional
group matches empty, exactly as the regex backtracks), `\s*`, then the
unit alternation.  Returns the numeric value and the unit, or `none` when
the regex does not match. -/
def parseDose (requested_dose : String) : Option (ℚ × String) :=
  let cs := requested_dose.toList
  let ip := cs.takeWhile Char.isDigit
  let r1 := cs.dropWhile Char.isDigit
  if ip.isEmpty then none
  else
    let vr : ℚ × List Char :=
      match r1 with
      | '.' :: r2 =>
          let fp := r2.takeWhile Char.isDigit
          let r3 := r2.dropWhile Char.isDigit
          if fp.isEmpty then ((natOfDigits ip : ℚ), r1)
          else ((natOfDigits ip : ℚ) + (natOfDigits fp : ℚ) / (10 : ℚ) ^ fp.length, r3)
      | _ => ((natOfDigits ip : ℚ), r1)
    match matchUnit (vr.2.dropWhile isPySpace) with
    | some u => some (vr.1, u)
    | none => none

/-- `PharmacyAgent._check_dosage`: a malformed dose string yields an
`error`-severity finding (the function returns it, it does not raise); a
parsed value outside `[min_dose, max_dose]` yields `moderate`; otherwise
`none`. -/
def check_dosage (drug_info : DrugInfo) (requested_dose : String) : CheckFinding :=
  match parseDose requested_dose with
  | none => { check := "dosage", severity := "error", finding := "Invalid dose format" }
  | some (dose_value, dose_unit) =>
      let min_dose := drug_info.min_dose.getD 0
      let out_of_range :=
        decide (dose_value < min_dose) ||
          (match drug_info.max_dose with
           | some m => decide (dose_value > m)
           | none => false)
      if out_of_range then
        { check := "dosage", severity := "moderate",
          finding := s!"Dose {requested_dose} outside formulary range ({dose_unit})",
          recommendation := some "Escalate for physician review" }
      else
        { check := "dosage", severity := "none",
          finding := "Dose within acceptable range" }

/-- `PharmacyAgent._check_controlled_substance`: Schedules II, III and IV
all take the same branch and yield severity `moderate` with the
co-signature recommendation (and a `schedule` key); anything else —
including no schedule at all — yields the `Non-controlled` dict, which
carries no `schedule` key. -/
def check_controlled_substance (drug_info : DrugInfo) : CheckFinding :=
  let schedule := drug_info.dea_schedule
  if schedule = some "II" ∨ schedule = some "III" ∨ schedule = some "IV" then
    { check := "controlled_substance", schedule := schedule, severity := "moderate",
      finding := "Controlled substance", recommendation := some "Requires physician co-signature" }
  else
    { check := "controlled_substance", severity := "none", finding := "Non-controlled" }

/-! ### Concrete check outcomes used in counterexamples and witnesses -/

def okAllergyNone : Except String CheckFinding :=
  .ok ⟨"allergy", "none", "No allergies detected", none, none⟩

def okDdiNone : Except String CheckFinding :=
  .ok ⟨"ddi", "none", "No significant interactions", none, none⟩

def okDosageNone : Except String CheckFinding :=
  .ok ⟨"dosage", "none", "Dose within acceptable range", none, none⟩

def ctrlII : CheckFinding :=
  ⟨"controlled_substance", "moderate", "Controlled substance Schedule II",
    some "Requires physician co-signature", some "II"⟩

def allergyModerate : CheckFinding :=
  ⟨"allergy", "moderate", "Cross-sensitivity with recorded allergy",
    some "Escalate to physician for review", none⟩

def ddiMajor : CheckFinding :=
  ⟨"ddi", "major", "Major interaction with active medication",
    some "BLOCK: Do not dispense", none⟩

def drug0 : DrugInfo :=
  { drug_name := "oxycodone", min_dose := some 5, max_dose := some 100,
    dea_schedule := some "II" }

def drugIV : DrugInfo :=
  { drug_name := "diazepam", dea_schedule := some "IV" }

/-! ### `AsyncCircuitBreaker` (app/safety/circuit_breaker.py)

`call` is modelled as a pure step: it receives the current breaker
bookkeeping, the clock value `time.time()` reads during this call, and
what the awaited operation would do if invoked (`Except.ok` a result, or
`Except.error` for a timeout or any raised error — the source catches
`(asyncio.TimeoutError, Exception)` uniformly).  It returns the call's
outcome, the updated bookkeeping, and whether the wrapped operation was
invoked; by construction one `call` consumes at most one operation
outcome, i.e. performs at most one underlying attempt. -/

inductive CircuitState where
  | CLOSED | OPEN | HALF_OPEN
deriving DecidableEq, Repr

structure AsyncCircuitBreaker where
  failure_threshold : Nat
  timeout : ℚ
  recovery_timeout : ℚ
  failure_count : Nat
  last_failure_time : Option ℚ
  state : CircuitState
deriving DecidableEq, Repr

/-- Raised errors escaping `call`: the breaker's own
`CircuitBreakerOpenError` (carrying the triggering error when raised
`from e` at the threshold, and nothing on the fail-fast path), or the
original operation error re-raised unchanged. -/
inductive CallError (ε : Type) where
  | circuitBreakerOpen (cause : Option ε)
  | original (e : ε)

/-- `AsyncCircuitBreaker._should_attempt_reset`. -/
def should_attempt_reset (b : AsyncCircuitBreaker) (now : ℚ) : Bool :=
  match b.last_failure_time with
  | none => true
  | some t => decide (now - t ≥ b.recovery_timeout)

/-- The first locked block of `call`: when the state is OPEN, either move
to HALF_OPEN (recovery window elapsed) or raise `CircuitBreakerOpenError`
without touching the operation (`none`). -/
def openGate (b : AsyncCircuitBreaker) (now : ℚ) : Option AsyncCircuitBreaker :=
  if b.state = CircuitState.OPEN then
    if should_attempt_reset b now then some { b with state := CircuitState.HALF_OPEN }
    else none
  else some b

structure CallResult (α ε : Type) where
  result : Except (CallError ε) α
  breaker : AsyncCircuitBreaker
  invoked : Bool

/-- `AsyncCircuitBreaker.call`. -/
def call {α ε : Type} (b : AsyncCircuitBreaker) (now : ℚ) (outcome : Except ε α) :
    CallResult α ε :=
  match openGate b now with
  | none => ⟨.error (.circuitBreakerOpen none), b, false⟩
  | some b1 =>
      match outcome with
      | .ok a =>
          ⟨.ok a,
           { b1 with failure_count := 0,
                     state := if b1.state = CircuitState.HALF_OPEN then CircuitState.CLOSED
                              else b1.state },
           true⟩
      | .error e =>
          let b2 := { b1 with failure_count := b1.failure_count + 1,
                              last_failure_time := some now }
          if b2.failure_count ≥ b1.failure_threshold then
            ⟨.error (.circuitBreakerOpen (some e)), { b2 with state := CircuitState.OPEN }, true⟩
          else
            ⟨.error (.original e), b2, true⟩

/-- A concrete closed breaker (threshold 2) for witnesses. -/
def breakerClosed : AsyncCircuitBreaker :=
  { failure_threshold := 2, timeout := 2, recovery_timeout := 30,
    failure_count := 0, last_failure_time := none, state := CircuitState.CLOSED }

/-- A concrete tripped-open breaker for witnesses. -/
def breakerOpen : AsyncCircuitBreaker :=
  { failure_threshold := 2, timeout := 2, recovery_timeout := 30,
    failure_count := 2, last_failure_time := some 0, state := CircuitState.OPEN }

/-! ### `CentralIntelligence.classify_intent` (app/agents/orchestrator.py)

The LLM classifier (`_llm_classify`) is an external dependency; its
would-be parsed response is the `LLMClassification` argument, and the
returned `Bool` records whether the classifier was actually invoked on
this path.  `parsed_form_intent` stands for
`json.loads(user_message)["intent"]` on the web path (`none` = the parse
or key lookup raises).  On the voice path the source computes
`confidence=asr_confidence or 0.5`, so a missing *or zero* (falsy) ASR
confidence becomes 0.5, and then formats
`f'ASR confidence: {asr_confidence:.2f}'`, which raises `TypeError` when
`asr_confidence` is `None`. -/

structure LLMClassification where
  intent : String
  confidence : ℚ
  reasoning : Option String := none
deriving DecidableEq, Repr

/-- The `IntentResult` schema (app/schemas/intents.py); `asr_metadata`
holds the transcript and the raw ASR confidence when present. -/
structure IntentResult where
  intent : String
  confidence : ℚ
  confidence_source : String
  asr_metadata : Option (String × Option ℚ) := none
  reasoning : Option String := none
deriving DecidableEq, Repr

def classify_intent (parsed_form_intent : Option String) (user_message : String)
    (channel : String) (asr_confidence : Option ℚ) (llm : LLMClassification) :
    Except String (IntentResult × Bool) :=
  if channel = "web" then
    match parsed_form_intent with
    | none => .error "json.loads: invalid web payload"
    | some i =>
        .ok ({ intent := i, confidence := 1, confidence_source := "web_form",
               reasoning := some "User explicitly selected intent via form" }, false)
  else if channel = "voice" then
    match asr_confidence with
    | none => .error "TypeError: unsupported format string passed to NoneType.__format__"
    | some c =>
        .ok ({ intent := llm.intent,
               confidence := if c = 0 then 1/2 else c,
               confidence_source := "asr_transcript",
               asr_metadata := some (user_message, some c),
               reasoning := some "ASR confidence" }, true)
  else
    .ok ({ intent := llm.intent, confidence := llm.confidence,
           confidence_source := "llm_classification", reasoning := llm.reasoning }, true)

/-- A concrete LLM response for counterexamples and witnesses. -/
def llm0 : LLMClassification :=
  { intent := "RequestRefill", confidence := 9/10, reasoning := some "refill wording" }

/-! ### The workflow state machine (app/state_machine.py)

`route_by_intent` returns one of the strings `"circuit_breaker"`,
`"extract_entities"`, `"clarify"`, or the langgraph `END` sentinel (for
`CancelRequest`); `RouteTag` enumerates these return values.  The
conditional-edge map attached to the `classify_intent` node
(`create_refill_graph`, lines 185-193) maps `"extract_entities"`,
`"circuit_breaker"` and `"clarify"` to nodes; the `END` sentinel is not a
key of that map (`none` below). -/

inductive RouteTag where
  | extract_entities | circuit_breaker | clarify | endToken
deriving DecidableEq, Repr

/-- `route_by_intent`, as a function of the two state fields it reads
(`state['intents'][-1]` and `state['confidence_scores']['intent']`). -/
def route_by_intent (intent : String) (confidence : ℚ) : RouteTag :=
  if confidence < 7/10 then RouteTag.circuit_breaker
  else if intent = "RequestRefill" then RouteTag.extract_entities
  else if intent = "CancelRequest" then RouteTag.endToken
  else RouteTag.clarify

/-- Graph nodes, plus the `END` terminal. -/
inductive Node where
  | collect_request | classify_intent_node | extract_entities_node | safety_check
  | escalate | dispense | terminalEND
deriving DecidableEq, Repr

/-- The path map of the conditional edges out of `classify_intent`. -/
def classify_conditional_edges : RouteTag → Option Node
  | RouteTag.extract_entities => some Node.extract_entities_node
  | RouteTag.circuit_breaker => some Node.terminalEND
  | RouteTag.clarify => some Node.collect_request
  | RouteTag.endToken => none

/-- The routing-relevant fields of `RefillState`, held fixed across one
routing decision. -/
structure RouteCtx where
  intent : String
  confidence : ℚ
  missing_slots : Bool
  blocked : Bool
  escalation_required : Bool
deriving DecidableEq, Repr

/-- Successor of each node in the compiled graph, per `create_refill_graph`:
plain edges for `collect_request`, `escalate`, `dispense`; conditional
edges via `route_by_intent`, `check_slot_completeness` and
`check_safety_result`; `END` has no successor. -/
def nextNode (ctx : RouteCtx) : Node → Option Node
  | Node.collect_request => some Node.classify_intent_node
  | Node.classify_intent_node =>
      classify_conditional_edges (route_by_intent ctx.intent ctx.confidence)
  | Node.extract_entities_node =>
      some (if ctx.missing_slots then Node.collect_request else Node.safety_check)
  | Node.safety_check =>
      some (if ctx.blocked then Node.terminalEND
            else if ctx.escalation_required then Node.escalate else Node.dispense)
  | Node.escalate => some Node.terminalEND
  | Node.dispense => some Node.terminalEND
  | Node.terminalEND => none

/-- Fuel-bounded trace of visited nodes from a start node. -/
def runFrom (ctx : RouteCtx) : Nat → Node → List Node
  | 0, n => [n]
  | fuel + 1, n =>
      n :: (match nextNode ctx n with
            | none => []
            | some m => runFrom ctx fuel m)

/-- A concrete low-confidence routing context for witnesses: confidence
0.40 on an unstructured channel. -/
def ctxLow : RouteCtx :=
  { intent := "CancelRequest", confidence := 2/5, missing_slots := false,
    blocked := false, escalation_required := false }

end Periop

namespace Periop

/-! ### Helper lemmas about the aggregation blocks -/

theorem allergyStep_blocked (a : Except String CheckFinding) :
    (allergyStep a).blocked = (isFailure a || yieldsSeverity a "major") := by
  cases a with
  | error e => rfl
  | ok f =>
      simp only [allergyStep, isFailure, yieldsSeverity]
      split_ifs with h1 h2 <;> simp_all

theorem ddiStep_blocked (s : AggState) (d : Except String CheckFinding) :
    (ddiStep s d).blocked = (s.blocked || yieldsSeverity d "major") := by
  cases d with
  | error e => simp [ddiStep, yieldsSeverity]
  | ok f =>
      simp only [ddiStep, yieldsSeverity]
      split_ifs with h1 h2 <;> simp_all

theorem controlledStep_blocked (s s' : AggState) (c : Except String CheckFinding)
    (h : controlledStep s c = .ok s') : s'.blocked = s.blocked := by
  cases c with
  | error e =>
      simp only [controlledStep, Except.ok.injEq] at h
      subst h; rfl
  | ok f =>
      simp only [controlledStep] at h
      split at h
      · simp at h
      · split_ifs at h with h1 <;>
          (simp only [Except.ok.injEq] at h; subst h; rfl)

theorem allergyStep_escalation (a : Except String CheckFinding) :
    (allergyStep a).escalation_required = yieldsSeverity a "moderate" := by
  cases a with
  | error e => rfl
  | ok f =>
      simp only [allergyStep, yieldsSeverity]
      split_ifs with h1 h2 <;> simp_all

theorem ddiStep_escalation (s : AggState) (d : Except String CheckFinding) :
    (ddiStep s d).escalation_required =
      (s.escalation_required || yieldsSeverity d "moderate") := by
  cases d with
  | error e => simp [ddiStep, yieldsSeverity]
  | ok f =>
      simp only [ddiStep, yieldsSeverity]
      split_ifs with h1 h2 <;> simp_all

theorem controlledStep_escalation (s s' : AggState) (c : Except String CheckFinding)
    (h : controlledStep s c = .ok s') :
    s'.escalation_required = (s.escalation_required || hasScheduleIIorIII c) := by
  cases c with
  | error e =>
      simp only [controlledStep, Except.ok.injEq] at h
      subst h; simp [hasScheduleIIorIII]
  | ok f =>
      simp only [controlledStep] at h
      split at h
      · simp at h
      · next sch hs =>
          split_ifs at h with h1
          · simp only [Except.ok.injEq] at h
            subst h
            simp only [hasScheduleIIorIII, hs]
            rcases h1 with h1 | h1 <;> simp [h1]
          · simp only [Except.ok.injEq] at h
            subst h
            simp only [hasScheduleIIorIII, hs]
            push_neg at h1
            simp [Option.some.injEq, h1.1, h1.2]

theorem validate_safety_ok (a d dos c : Except String CheckFinding) (r : SafetyResult)
    (h : validate_safety a d dos c = .ok r) :
    ∃ s, controlledStep (ddiStep (allergyStep a) d) c = .ok s ∧
      r = ⟨!s.blocked, s.blocked, s.escalation_required, s.findings,
           generate_recommendations s.findings⟩ := by
  unfold validate_safety at h
  cases hc : controlledStep (ddiStep (allergyStep a) d) c with
  | error e => rw [hc] at h; exact absurd h (by simp)
  | ok s =>
      rw [hc] at h
      simp only [Except.ok.injEq] at h
      exact ⟨s, rfl, h.symm⟩

theorem allergyStep_findings (a : Except String CheckFinding) :
    (allergyStep a).findings = notableAllergy a := by
  cases a with
  | error e => rfl
  | ok f =>
      simp only [allergyStep, notableAllergy]
      split_ifs with h1 h2 h3 <;> simp_all

theorem ddiStep_findings (s : AggState) (d : Except String CheckFinding) :
    (ddiStep s d).findings = s.findings ++ notableDdi d := by
  cases d with
  | error e => simp [ddiStep, notableDdi]
  | ok f =>
      simp only [ddiStep, notableDdi]
      split_ifs with h1 h2 h3 <;> simp_all

theorem controlledStep_findings (s s' : AggState) (c : Except String CheckFinding)
    (h : controlledStep s c = .ok s') :
    s'.findings = s.findings ++ notableControlled c := by
  cases c with
  | error e =>
      simp only [controlledStep, Except.ok.injEq] at h
      subst h; simp [notableControlled]
  | ok f =>
      simp only [controlledStep] at h
      split at h
      · simp at h
      · next sch hs =>
          split_ifs at h with h1
          · simp only [Except.ok.injEq] at h
            subst h
            simp [notableControlled, hs, h1]
          · simp only [Except.ok.injEq] at h
            subst h
            simp [notableControlled, hs, h1]

/-! ### C1 -/

/-- Claim C1: for every invocation of `validate_safety` that returns a
`SafetyResult`, `blocked` is true iff the allergy check yielded severity
`major`, or the interaction (ddi) check yielded severity `major`, or the
allergy check arrived as an unresolved failure (fail-closed for
allergies); a failed interaction check never sets `blocked` (it is absent
from the right-hand side); and `passed = not blocked`. -/
theorem C1_blocked_policy (a d dos c : Except String CheckFinding) (r : SafetyResult)
    (h : validate_safety a d dos c = .ok r) :
    r.blocked = (yieldsSeverity a "major" || yieldsSeverity d "major" || isFailure a)
    ∧ r.passed = !r.blocked := by
  obtain ⟨s, hc, hr⟩ := validate_safety_ok a d dos c r h
  have hb := controlledStep_blocked _ _ _ hc
  rw [ddiStep_blocked, allergyStep_blocked] at hb
  subst hr
  refine ⟨?_, rfl⟩
  simp only [hb]
  cases isFailure a <;> cases yieldsSeverity a "major" <;>
    cases yieldsSeverity d "major" <;> rfl

/-- Witness for C1 at a concrete input: allergy check failed (EHR down),
ddi check clean, controlled check Schedule II. -/
theorem C1_blocked_policy_witness :
    (SafetyResult.blocked
        ⟨false, true, true,
         [.errorEntry "allergy" "EHR unavailable",
          .finding ⟨"controlled_substance", "moderate", "Controlled substance Schedule II",
            some "Requires physician co-signature", some "II"⟩],
         ["Requires physician co-signature"]⟩ =
      (yieldsSeverity (.error "EHR unavailable") "major"
        || yieldsSeverity (.ok ⟨"ddi", "none", "No significant interactions", none, none⟩) "major"
        || isFailure (.error "EHR unavailable")))
    ∧ (SafetyResult.passed
        ⟨false, true, true,
         [.errorEntry "allergy" "EHR unavailable",
          .finding ⟨"controlled_substance", "moderate", "Controlled substance Schedule II",
            some "Requires physician co-signature", some "II"⟩],
         ["Requires physician co-signature"]⟩ = !true) :=
  C1_blocked_policy (.error "EHR unavailable")
    (.ok ⟨"ddi", "none", "No significant interactions", none, none⟩)
    (.ok ⟨"dosage", "none", "Dose within acceptable range", none, none⟩)
    (.ok ⟨"controlled_substance", "moderate", "Controlled substance Schedule II",
      some "Requires physician co-signature", some "II"⟩)
    ⟨false, true, true,
     [.errorEntry "allergy" "EHR unavailable",
      .finding ⟨"controlled_substance", "moderate", "Controlled substance Schedule II",
        some "Requires physician co-signature", some "II"⟩],
     ["Requires physician co-signature"]⟩
    (by rfl)

/-! ### C2 -/

/-- Counterexample to claim C2: an invocation with all four checks clean
except a Schedule II controlled substance returns a `SafetyResult` whose
`findings` list has one entry, not four — `validate_safety` appends an
entry only on the error / major / moderate / Schedule II-III branches,
and never consults the dosage outcome at all. -/
theorem C2_counterexample :
    validate_safety okAllergyNone okDdiNone okDosageNone (.ok ctrlII) =
      .ok ⟨true, false, true, [.finding ctrlII], ["Requires physician co-signature"]⟩
    ∧ ¬ ([FindingEntry.finding ctrlII].length = 4) :=
  ⟨by rfl, by decide⟩

/-- Claim C2 amended: for every invocation that returns a `SafetyResult`,
`findings` is exactly the notable outcomes — the allergy outcome when it
failed or yielded major/moderate, then the ddi outcome when it failed or
yielded major/moderate, then the controlled-substance outcome when it
failed or carries Schedule II or III — in that fixed relative order; the
dosage outcome never appears, and indeed the whole result is independent
of the gathered dosage outcome. -/
theorem C2_findings_only_notable (a d dos c : Except String CheckFinding)
    (r : SafetyResult) (h : validate_safety a d dos c = .ok r) :
    r.findings = notableAllergy a ++ notableDdi d ++ notableControlled c
    ∧ ∀ dos', validate_safety a d dos' c = validate_safety a d dos c := by
  obtain ⟨s, hc, hr⟩ := validate_safety_ok a d dos c r h
  have hf := controlledStep_findings _ _ _ hc
  rw [ddiStep_findings, allergyStep_findings] at hf
  subst hr
  exact ⟨by simpa [List.append_assoc] using hf, fun dos' => rfl⟩

/-- Witness for C2 amended at a concrete input (failed allergy check,
clean ddi, Schedule II controlled substance). -/
theorem C2_findings_only_notable_witness :
    (SafetyResult.findings
        ⟨false, true, true,
         [.errorEntry "allergy" "EHR unavailable", .finding ctrlII],
         ["Requires physician co-signature"]⟩ =
      notableAllergy (.error "EHR unavailable") ++ notableDdi okDdiNone
        ++ notableControlled (.ok ctrlII))
    ∧ ∀ dos', validate_safety (.error "EHR unavailable") okDdiNone dos' (.ok ctrlII) =
        validate_safety (.error "EHR unavailable") okDdiNone okDosageNone (.ok ctrlII) :=
  C2_findings_only_notable (.error "EHR unavailable") okDdiNone okDosageNone (.ok ctrlII)
    ⟨false, true, true,
     [.errorEntry "allergy" "EHR unavailable", .finding ctrlII],
     ["Requires physician co-signature"]⟩
    (by rfl)

/-! ### C3 -/

/-- Counterexample to claim C3: with a moderate allergy finding and a
major ddi finding, the returned result has `escalation_required = true`
while `blocked = true` — the source never consults `blocked` when setting
`escalation_required`, so "escalation iff some check is moderate AND
blocked is false" fails. -/
theorem C3_counterexample :
    validate_safety (.ok allergyModerate) (.ok ddiMajor) okDosageNone (.error "drug KB down") =
      .ok ⟨false, true, true,
           [.finding allergyModerate, .finding ddiMajor,
            .errorEntry "controlled" "drug KB down"],
           ["Escalate to physician for review", "BLOCK: Do not dispense"]⟩
    ∧ ¬ (SafetyResult.escalation_required
          ⟨false, true, true,
           [.finding allergyModerate, .finding ddiMajor,
            .errorEntry "controlled" "drug KB down"],
           ["Escalate to physician for review", "BLOCK: Do not dispense"]⟩ = true →
        SafetyResult.blocked
          ⟨false, true, true,
           [.finding allergyModerate, .finding ddiMajor,
            .errorEntry "controlled" "drug KB down"],
           ["Escalate to physician for review", "BLOCK: Do not dispense"]⟩ = false) :=
  ⟨by rfl, by decide⟩

/-- Claim C3 amended: for every invocation that returns a `SafetyResult`,
`escalation_required` is true iff the allergy check yielded severity
`moderate`, or the ddi check yielded severity `moderate`, or the
controlled-substance check succeeded with Schedule II or III — regardless
of `blocked`, and with no contribution from the dosage check (whose
outcome is never consulted). -/
theorem C3_escalation_policy (a d dos c : Except String CheckFinding)
    (r : SafetyResult) (h : validate_safety a d dos c = .ok r) :
    r.escalation_required =
      (yieldsSeverity a "moderate" || yieldsSeverity d "moderate" || hasScheduleIIorIII c) := by
  obtain ⟨s, hc, hr⟩ := validate_safety_ok a d dos c r h
  have he := controlledStep_escalation _ _ _ hc
  rw [ddiStep_escalation, allergyStep_escalation] at he
  subst hr
  simpa [Bool.or_assoc] using he

/-- Witness for C3 amended at a concrete input: moderate allergy finding
together with a blocking major ddi finding still sets escalation. -/
theorem C3_escalation_policy_witness :
    SafetyResult.escalation_required
        ⟨false, true, true,
         [.finding allergyModerate, .finding ddiMajor,
          .errorEntry "controlled" "drug KB down"],
         ["Escalate to physician for review", "BLOCK: Do not dispense"]⟩ =
      (yieldsSeverity (.ok allergyModerate) "moderate"
        || yieldsSeverity (.ok ddiMajor) "moderate"
        || hasScheduleIIorIII (.error "drug KB down")) :=
  C3_escalation_policy (.ok allergyModerate) (.ok ddiMajor) okDosageNone (.error "drug KB down")
    ⟨false, true, true,
     [.finding allergyModerate, .finding ddiMajor,
      .errorEntry "controlled" "drug KB down"],
     ["Escalate to physician for review", "BLOCK: Do not dispense"]⟩
    (by rfl)

/-! ### C4 -/

/-- Claim C4, evaluated at the failing input: the dosage check itself
behaves as claimed — `"abc"` yields an `error`-severity finding without
raising, an out-of-range dose yields `moderate`, an in-range dose yields
`none` — but `validate_safety` drops the gathered `dosage_check` outcome,
so the error finding never appears in `SafetyResult.findings`: with every
other check benign (Schedule II controlled substance so that the
aggregation returns), the returned findings list holds only the
controlled-substance entry. -/
theorem C4_dosage_error_finding_dropped :
    check_dosage drug0 "abc" = ⟨"dosage", "error", "Invalid dose format", none, none⟩
    ∧ (check_dosage drug0 "500mg").severity = "moderate"
    ∧ (check_dosage drug0 "50mg").severity = "none"
    ∧ validate_safety okAllergyNone okDdiNone (.ok (check_dosage drug0 "abc")) (.ok ctrlII) =
        .ok ⟨true, false, true, [.finding ctrlII], ["Requires physician co-signature"]⟩
    ∧ entryCheckName (.finding ctrlII) = "controlled_substance" :=
  ⟨by rfl, by decide, by decide, by rfl, by rfl⟩

/-! ### C7 -/

/-- Counterexample to claim C7: a Schedule IV drug takes the same branch
as II and III in `_check_controlled_substance` and yields severity
`moderate` (not merely informational), yet the aggregation neither
escalates on it nor surfaces it in `findings` — the returned result for
an otherwise clean request on a Schedule IV drug has empty findings. -/
theorem C7_counterexample :
    (check_controlled_substance drugIV).severity = "moderate"
    ∧ (check_controlled_substance drugIV).schedule = some "IV"
    ∧ validate_safety okAllergyNone okDdiNone okDosageNone
        (.ok (check_controlled_substance drugIV)) =
      .ok ⟨true, false, false, [], []⟩ :=
  ⟨by decide, by decide, by rfl⟩

/-- Claim C7 amended: `_check_controlled_substance` yields severity
`moderate` (with the co-signature recommendation) for Schedules II, III
and IV alike, and the `Non-controlled` dict with severity `none` (and no
`schedule` key) otherwise; in the aggregation, only Schedule II or III
triggers escalation, and a Schedule IV outcome is neither
escalation-triggering nor surfaced in `findings`. -/
theorem C7_controlled_policy (drug_info : DrugInfo) (a d dos : Except String CheckFinding)
    (f : CheckFinding) (r : SafetyResult) :
    ((check_controlled_substance drug_info).severity = "moderate" ↔
      (drug_info.dea_schedule = some "II" ∨ drug_info.dea_schedule = some "III" ∨
        drug_info.dea_schedule = some "IV"))
    ∧ (¬ (drug_info.dea_schedule = some "II" ∨ drug_info.dea_schedule = some "III" ∨
          drug_info.dea_schedule = some "IV") →
        check_controlled_substance drug_info =
          ⟨"controlled_substance", "none", "Non-controlled", none, none⟩)
    ∧ (validate_safety a d dos (.ok f) = .ok r →
        r.escalation_required =
          (yieldsSeverity a "moderate" || yieldsSeverity d "moderate"
            || hasScheduleIIorIII (.ok f))
        ∧ r.findings = notableAllergy a ++ notableDdi d ++ notableControlled (.ok f)) := by
  refine ⟨?_, ?_, ?_⟩
  · unfold check_controlled_substance
    dsimp only
    split_ifs with h
    · exact iff_of_true rfl h
    · exact iff_of_false (by decide) h
  · intro h
    unfold check_controlled_substance
    dsimp only
    rw [if_neg h]
  · intro h
    obtain ⟨s, hc, hr⟩ := validate_safety_ok a d dos (.ok f) r h
    have he := controlledStep_escalation _ _ _ hc
    rw [ddiStep_escalation, allergyStep_escalation] at he
    have hf := controlledStep_findings _ _ _ hc
    rw [ddiStep_findings, allergyStep_findings] at hf
    subst hr
    exact ⟨by simpa [Bool.or_assoc] using he, by simpa [List.append_assoc] using hf⟩

/-- Witness for C7 amended: the aggregation clause applied at a clean
request for a Schedule II drug. -/
theorem C7_controlled_policy_witness :
    SafetyResult.escalation_required
        ⟨true, false, true, [.finding ctrlII], ["Requires physician co-signature"]⟩ =
      (yieldsSeverity okAllergyNone "moderate" || yieldsSeverity okDdiNone "moderate"
        || hasScheduleIIorIII (.ok ctrlII))
    ∧ SafetyResult.findings
        ⟨true, false, true, [.finding ctrlII], ["Requires physician co-signature"]⟩ =
      notableAllergy okAllergyNone ++ notableDdi okDdiNone ++ notableControlled (.ok ctrlII) :=
  (C7_controlled_policy drugIV okAllergyNone okDdiNone okDosageNone ctrlII
    ⟨true, false, true, [.finding ctrlII], ["Requires physician co-signature"]⟩).2.2 (by rfl)

/-! ### Circuit-breaker lemmas, C5 and C6 -/

theorem openGate_cases (b b1 : AsyncCircuitBreaker) (now : ℚ)
    (h : openGate b now = some b1) :
    (b.state ≠ CircuitState.OPEN ∧ b1 = b) ∨
      (b.state = CircuitState.OPEN ∧ should_attempt_reset b now = true ∧
        b1 = { b with state := CircuitState.HALF_OPEN }) := by
  unfold openGate at h
  by_cases h1 : b.state = CircuitState.OPEN
  · rw [if_pos h1] at h
    by_cases h2 : should_attempt_reset b now = true
    · rw [if_pos h2] at h
      simp only [Option.some.injEq] at h
      exact Or.inr ⟨h1, h2, h.symm⟩
    · rw [if_neg h2] at h
      simp at h
  · rw [if_neg h1] at h
    simp only [Option.some.injEq] at h
    exact Or.inl ⟨h1, h.symm⟩

/-- Claim C5: when the wrapped operation fails (timeout or raise) on a
call that passed the open-state gate, the breaker increments
`failure_count` and records the failure time; the post-call state is OPEN
exactly when the incremented count reaches `failure_threshold` (never
earlier); at the threshold the call fails with `CircuitBreakerOpenError`
wrapping the triggering error, and below it the original error is
re-surfaced unchanged. -/
theorem C5_failure_accounting {α ε : Type} (b b1 : AsyncCircuitBreaker) (now : ℚ) (e : ε)
    (hg : openGate b now = some b1) :
    (call (α := α) b now (.error e)).invoked = true
    ∧ (call (α := α) b now (.error e)).breaker.failure_count = b.failure_count + 1
    ∧ (call (α := α) b now (.error e)).breaker.last_failure_time = some now
    ∧ ((call (α := α) b now (.error e)).breaker.state = CircuitState.OPEN ↔
        b.failure_count + 1 ≥ b.failure_threshold)
    ∧ (b.failure_count + 1 ≥ b.failure_threshold →
        (call (α := α) b now (.error e)).result = .error (.circuitBreakerOpen (some e)))
    ∧ (b.failure_count + 1 < b.failure_threshold →
        (call (α := α) b now (.error e)).result = .error (.original e)) := by
  have hgate := hg
  unfold openGate at hgate
  by_cases h1 : b.state = CircuitState.OPEN
  · rw [if_pos h1] at hgate
    by_cases h2 : should_attempt_reset b now = true
    · rw [if_pos h2] at hgate
      simp only [Option.some.injEq] at hgate
      subst hgate
      simp only [call, hg]
      by_cases h : b.failure_count + 1 ≥ b.failure_threshold
      · rw [if_pos h]
        exact ⟨rfl, rfl, rfl, iff_of_true rfl h, fun _ => rfl,
          fun hlt => absurd h (not_le.mpr hlt)⟩
      · rw [if_neg h]
        exact ⟨rfl, rfl, rfl, iff_of_false (by simp) h, fun hge => absurd hge h, fun _ => rfl⟩
    · rw [if_neg h2] at hgate
      simp at hgate
  · rw [if_neg h1] at hgate
    simp only [Option.some.injEq] at hgate
    subst hgate
    simp only [call, hg]
    by_cases h : b.failure_count + 1 ≥ b.failure_threshold
    · rw [if_pos h]
      exact ⟨rfl, rfl, rfl, iff_of_true rfl h, fun _ => rfl,
        fun hlt => absurd h (not_le.mpr hlt)⟩
    · rw [if_neg h]
      exact ⟨rfl, rfl, rfl, iff_of_false h1 h, fun hge => absurd hge h, fun _ => rfl⟩

/-- Witness for C5 on a closed breaker with threshold 2 and no prior
failures: one failure increments the count and re-raises the original
error. -/
theorem C5_failure_accounting_witness :
    (call (α := Nat) breakerClosed 5 (.error "boom")).breaker.failure_count =
        breakerClosed.failure_count + 1
    ∧ (call (α := Nat) breakerClosed 5 (.error "boom")).result =
        .error (.original "boom") :=
  ⟨(C5_failure_accounting breakerClosed breakerClosed 5 "boom" rfl).2.1,
   (C5_failure_accounting breakerClosed breakerClosed 5 "boom" rfl).2.2.2.2.2 (by decide)⟩

/-- Claim C6: while the breaker is OPEN, a call inside the recovery
window fails immediately with `CircuitBreakerOpenError`, leaves the
bookkeeping untouched and never invokes the wrapped operation; once
`_should_attempt_reset` holds, the gate moves the breaker to HALF_OPEN
and the call performs exactly one underlying attempt (the model invokes
at most one operation outcome per call by construction, and here
`invoked` is true). -/
theorem C6_open_failfast_then_halfopen {α ε : Type} (b : AsyncCircuitBreaker)
    (now t : ℚ) (outcome : Except ε α) (hs : b.state = CircuitState.OPEN) :
    (b.last_failure_time = some t → now - t < b.recovery_timeout →
        call b now outcome = ⟨.error (.circuitBreakerOpen none), b, false⟩)
    ∧ (should_attempt_reset b now = true →
        openGate b now = some { b with state := CircuitState.HALF_OPEN }
        ∧ (call b now outcome).invoked = true) := by
  refine ⟨?_, ?_⟩
  · intro hl hlt
    have hra : should_attempt_reset b now = false := by
      simp only [should_attempt_reset, hl, decide_eq_false_iff_not]
      exact not_le.mpr hlt
    simp [call, openGate, hs, hra]
  · intro hra
    have hg : openGate b now = some { b with state := CircuitState.HALF_OPEN } := by
      simp [openGate, hs, hra]
    refine ⟨hg, ?_⟩
    cases outcome with
    | ok a => simp [call, hg]
    | error e =>
        simp only [call, hg]
        split_ifs <;> rfl

/-- Witness for C6 on a tripped breaker (last failure at time 0, recovery
window 30): at time 10 the call fail-fasts without invoking the
operation; at time 40 the gate reaches HALF_OPEN and the operation is
attempted. -/
theorem C6_open_failfast_then_halfopen_witness :
    (call (α := Nat) (ε := String) breakerOpen 10 (.ok 42) =
      ⟨.error (.circuitBreakerOpen none), breakerOpen, false⟩)
    ∧ (openGate breakerOpen 40 = some { breakerOpen with state := CircuitState.HALF_OPEN }
        ∧ (call (α := Nat) (ε := String) breakerOpen 40 (.ok 42)).invoked = true) :=
  ⟨(C6_open_failfast_then_halfopen breakerOpen 10 0 (.ok 42) rfl).1 rfl
     (by norm_num [breakerOpen]),
   (C6_open_failfast_then_halfopen breakerOpen 40 0 (.ok 42) rfl).2
     (by norm_num [should_attempt_reset, breakerOpen])⟩

/-! ### C8 -/

/-- Counterexample to claim C8: on channel `voice` with a supplied ASR
confidence of exactly 0.0, the returned confidence is 0.5, not the
supplied value — `confidence=asr_confidence or 0.5` treats 0.0 as falsy. -/
theorem C8_counterexample :
    classify_intent none "refill my lisinopril" "voice" (some 0) llm0 =
      .ok ({ intent := "RequestRefill", confidence := 1/2,
             confidence_source := "asr_transcript",
             asr_metadata := some ("refill my lisinopril", some 0),
             reasoning := some "ASR confidence" }, true)
    ∧ ¬ ((1 : ℚ)/2 = 0) :=
  ⟨by rfl, by norm_num⟩

/-- Claim C8 amended: channel `web` never invokes the LLM classifier and
returns the user-supplied (form) intent with confidence exactly 1.0;
channel `voice` returns the supplied ASR confidence when it is nonzero
but 0.5 when the supplied value is 0.0 (Python `or` treats it as falsy);
every other channel returns the classifier's self-reported confidence and
intent. -/
theorem C8_channel_confidence (pf : Option String) (msg ch : String)
    (ac : Option ℚ) (llm : LLMClassification) (r : IntentResult) (invoked : Bool) :
    (ch = "web" → classify_intent pf msg ch ac llm = .ok (r, invoked) →
        invoked = false ∧ r.confidence = 1 ∧ pf = some r.intent)
    ∧ (ch = "voice" → ∀ c, ac = some c →
        classify_intent pf msg ch ac llm = .ok (r, invoked) →
        invoked = true ∧ r.confidence = (if c = 0 then 1/2 else c))
    ∧ (ch ≠ "web" → ch ≠ "voice" →
        classify_intent pf msg ch ac llm = .ok (r, invoked) →
        invoked = true ∧ r.confidence = llm.confidence ∧ r.intent = llm.intent) := by
  refine ⟨?_, ?_, ?_⟩
  · intro hch h
    subst hch
    unfold classify_intent at h
    rw [if_pos rfl] at h
    cases pf with
    | none => exact absurd h (by simp)
    | some i =>
        simp only [Except.ok.injEq, Prod.mk.injEq] at h
        refine ⟨h.2.symm, ?_, ?_⟩
        · rw [← h.1]
        · rw [← h.1]
  · intro hch c hac h
    subst hch
    subst hac
    unfold classify_intent at h
    rw [if_neg (by decide), if_pos rfl] at h
    simp only [Except.ok.injEq, Prod.mk.injEq] at h
    exact ⟨h.2.symm, by rw [← h.1]⟩
  · intro hw hv h
    unfold classify_intent at h
    rw [if_neg hw, if_neg hv] at h
    simp only [Except.ok.injEq, Prod.mk.injEq] at h
    exact ⟨h.2.symm, by rw [← h.1], by rw [← h.1]⟩

/-- Witness for C8 amended: the web clause at a concrete form submission. -/
theorem C8_channel_confidence_witness :
    (false = false)
    ∧ IntentResult.confidence
        ⟨"RequestRefill", 1, "web_form", none,
         some "User explicitly selected intent via form"⟩ = 1
    ∧ (some "RequestRefill" : Option String) =
        some (IntentResult.intent
          ⟨"RequestRefill", 1, "web_form", none,
           some "User explicitly selected intent via form"⟩) :=
  (C8_channel_confidence (some "RequestRefill") "form submission" "web" none llm0
    ⟨"RequestRefill", 1, "web_form", none,
     some "User explicitly selected intent via form"⟩ false).1 rfl (by rfl)

/-! ### C9 and C10 -/

theorem runFrom_terminalEND (ctx : RouteCtx) (m : Nat) :
    runFrom ctx m Node.terminalEND = [Node.terminalEND] := by
  cases m <;> simp [runFrom, nextNode]

/-- Claim C9: whenever the classified intent's confidence is below 0.70,
`route_by_intent` returns the `circuit_breaker` label for every intent,
the conditional-edge map sends that label to the terminal `END` (the
spec's `rejected` outcome), and no continuation of the run from the
classifying node ever visits the entity-extraction node. -/
theorem C9_low_confidence_rejected (ctx : RouteCtx) (fuel : Nat)
    (h : ctx.confidence < 7/10) :
    route_by_intent ctx.intent ctx.confidence = RouteTag.circuit_breaker
    ∧ nextNode ctx Node.classify_intent_node = some Node.terminalEND
    ∧ Node.extract_entities_node ∉ runFrom ctx fuel Node.classify_intent_node := by
  have hroute : route_by_intent ctx.intent ctx.confidence = RouteTag.circuit_breaker := by
    unfold route_by_intent
    rw [if_pos h]
  have hnext : nextNode ctx Node.classify_intent_node = some Node.terminalEND := by
    simp [nextNode, hroute, classify_conditional_edges]
  refine ⟨hroute, hnext, ?_⟩
  cases fuel with
  | zero => simp [runFrom]
  | succ n =>
      simp only [runFrom, hnext, List.mem_cons, runFrom_terminalEND]
      push_neg
      exact ⟨by simp, by simp⟩

/-- Witness for C9 at confidence 0.40 with intent `CancelRequest`. -/
theorem C9_low_confidence_rejected_witness :
    route_by_intent ctxLow.intent ctxLow.confidence = RouteTag.circuit_breaker
    ∧ nextNode ctxLow Node.classify_intent_node = some Node.terminalEND
    ∧ Node.extract_entities_node ∉ runFrom ctxLow 5 Node.classify_intent_node :=
  C9_low_confidence_rejected ctxLow 5 (by norm_num [ctxLow])

/-- Claim C10: the low-confidence test in `route_by_intent` precedes
every intent-based transition — below 0.70 the route is `circuit_breaker`
for every intent, including `CancelRequest` and `Clarification`; the
cancel route (`END`) and the re-prompt route (`clarify`) are reachable
only at confidence at or above 0.70. -/
theorem C10_low_confidence_precedence (intent : String) (confidence : ℚ) :
    (confidence < 7/10 → route_by_intent intent confidence = RouteTag.circuit_breaker)
    ∧ (route_by_intent intent confidence = RouteTag.endToken →
        7/10 ≤ confidence ∧ intent = "CancelRequest")
    ∧ (route_by_intent intent confidence = RouteTag.clarify → 7/10 ≤ confidence) := by
  refine ⟨?_, ?_, ?_⟩
  · intro h
    unfold route_by_intent
    rw [if_pos h]
  · intro h
    unfold route_by_intent at h
    by_cases h1 : confidence < 7/10
    · rw [if_pos h1] at h
      exact absurd h (by simp)
    · rw [if_neg h1] at h
      by_cases h2 : intent = "RequestRefill"
      · rw [if_pos h2] at h
        exact absurd h (by simp)
      · rw [if_neg h2] at h
        by_cases h3 : intent = "CancelRequest"
        · exact ⟨not_lt.mp h1, h3⟩
        · rw [if_neg h3] at h
          exact absurd h (by simp)
  · intro h
    unfold route_by_intent at h
    by_cases h1 : confidence < 7/10
    · rw [if_pos h1] at h
      exact absurd h (by simp)
    · exact not_lt.mp h1

/-- Witness for C10: a `CancelRequest` at confidence 0.40 is routed to
the low-confidence terminal, not to the cancel transition. -/
theorem C10_low_confidence_precedence_witness :
    route_by_intent "CancelRequest" (2/5) = RouteTag.circuit_breaker :=
  (C10_low_confidence_precedence "CancelRequest" (2/5)).1 (by norm_num)

end Periop
